import Mathlib

/-!
Shallow embedding of the sleep-record web backend (`app.py`).

The application is a Flask service over one PostgreSQL table
(`sleep_records`, created in `init_db`, app.py lines 59-66) with three
endpoints: `POST /api/records` (submit), `GET /api/records` (list) and
`GET /api/stats` (statistics).  Handlers are embedded as pure functions
from a store state and a parsed request to a result triple: the sequence
of connection/query/response events the handler performs, the HTTP
response, and the new store state.  Database statements executed by the
handlers (INSERT with the UNIQUE constraint, SELECT ... ORDER BY,
COUNT) are given their standard SQL semantics over the store state; the
database engine itself is an external collaborator of the repository.
A `fault : Bool` argument injects a storage failure at the first query
of a handler, modelling the `except` paths.
-/

namespace SleepApp

/-- A time-of-day value as held by the `sleep_time TIME NOT NULL` column
and by Python `datetime.time` (hour, minute, second). -/
structure Time where
  hour : Nat
  minute : Nat
  second : Nat
  deriving DecidableEq

/-- A calendar date as held by the `record_date DATE NOT NULL UNIQUE` column. -/
structure Date where
  year : Nat
  month : Nat
  day : Nat
  deriving DecidableEq

/-- Strict calendar order on dates: lexicographic on (year, month, day). -/
def Date.ltB (a b : Date) : Bool :=
  a.year < b.year ||
    (a.year == b.year && (a.month < b.month ||
      (a.month == b.month && a.day < b.day)))

/-- Calendar order on dates, non-strict. -/
def Date.leB (a b : Date) : Bool :=
  a.year < b.year ||
    (a.year == b.year && (a.month < b.month ||
      (a.month == b.month && a.day ≤ b.day)))

/-- Split a character list at every occurrence of the separator `c`. -/
def splitOnChar (c : Char) : List Char → List (List Char)
  | [] => [[]]
  | x :: xs =>
    match splitOnChar c xs, x == c with
    | r, true => [] :: r
    | [], false => [[x]]
    | y :: ys, false => (x :: y) :: ys

/-- Read a decimal digit. -/
def digitVal? (c : Char) : Option Nat :=
  if c.isDigit then some (c.toNat - 48) else none

/-- Accumulate decimal digits into a number; any non-digit rejects. -/
def digitsAux : List Char → Nat → Option Nat
  | [], acc => some acc
  | c :: cs, acc =>
    match digitVal? c with
    | some v => digitsAux cs (acc * 10 + v)
    | none => none

/-- Parse a non-empty all-digit character list as a natural number. -/
def digitsToNat? : List Char → Option Nat
  | [] => none
  | cs => digitsAux cs 0

/-- Parse the `sleep_time` request field, i.e. the input conversion the
database performs on the TIME parameter of the INSERT (app.py line 102):
`HH:MM:SS` or `HH:MM` with in-range components; anything else is a
conversion error. -/
def parseTime (s : String) : Option Time :=
  match (splitOnChar ':' s.data).map digitsToNat? with
  | [some h, some m, some sec] =>
    if h < 24 && m < 60 && sec < 60 then some ⟨h, m, sec⟩ else none
  | [some h, some m] =>
    if h < 24 && m < 60 then some ⟨h, m, 0⟩ else none
  | _ => none

/-- Parse the `record_date` request field, i.e. the input conversion the
database performs on the DATE parameter of the INSERT: `YYYY-MM-DD` with
in-range month and day; anything else is a conversion error. -/
def parseDate (s : String) : Option Date :=
  match (splitOnChar '-' s.data).map digitsToNat? with
  | [some y, some m, some d] =>
    if 1 ≤ m && m ≤ 12 && 1 ≤ d && d ≤ 31 then some ⟨y, m, d⟩ else none
  | _ => none

/-- Zero-pad a number to two digits. -/
def pad2 (n : Nat) : String :=
  if n < 10 then "0" ++ toString n else toString n

/-- Zero-pad a number to four digits. -/
def pad4 (n : Nat) : String :=
  if n < 10 then "000" ++ toString n
  else if n < 100 then "00" ++ toString n
  else if n < 1000 then "0" ++ toString n
  else toString n

/-- Python `str(t)` on a whole-second `datetime.time`: `HH:MM:SS`
(used at app.py lines 110 and 130). -/
def Time.serialize (t : Time) : String :=
  pad2 t.hour ++ ":" ++ pad2 t.minute ++ ":" ++ pad2 t.second

/-- Python `d.isoformat()` on a `datetime.date`: `YYYY-MM-DD`
(used at app.py lines 110 and 130). -/
def Date.isoformat (d : Date) : String :=
  pad4 d.year ++ "-" ++ pad2 d.month ++ "-" ++ pad2 d.day

/-- One row of the `sleep_records` table (the `created_at` column is
informational only and never read by the handlers). -/
structure Row where
  id : Nat
  sleep_time : Time
  record_date : Date
  deriving DecidableEq

/-- The state of the record store: the table rows in insertion order and
the next value of the `id SERIAL` sequence. -/
structure Store where
  rows : List Row
  nextId : Nat
  deriving DecidableEq

/-- Whether some stored row already has the given date. -/
def Store.hasDate (st : Store) (d : Date) : Bool :=
  st.rows.any (fun r => r.record_date == d)

/-- The list of stored dates, in row order. -/
def storeDates (st : Store) : List Date :=
  st.rows.map (fun r => r.record_date)

/-- The sole store invariant: at most one record per `record_date`. -/
def datesNodup (st : Store) : Prop :=
  (storeDates st).Nodup

/-- Errors an SQL statement can raise: a UNIQUE-constraint violation
(pg8000 `IntegrityError`, caught at app.py line 111) or any other
database error (caught by the generic `except Exception`). -/
inductive DbErr where
  | integrity
  | other
  deriving DecidableEq

/-- Semantics of `INSERT INTO sleep_records (sleep_time, record_date)
VALUES (%s, %s) RETURNING id, sleep_time, record_date` (app.py lines
102-105) against the schema of `init_db`: parameter values are converted
first (a malformed value is a non-integrity error), then a duplicate
`record_date` violates the UNIQUE constraint; otherwise one row is
appended with the next serial id and returned. -/
def dbInsert (st : Store) (timeText dateText : String) : Except DbErr (Row × Store) :=
  match parseTime timeText, parseDate dateText with
  | some t, some d =>
    if st.hasDate d then .error .integrity
    else
      let r : Row := ⟨st.nextId, t, d⟩
      .ok (r, ⟨st.rows ++ [r], st.nextId + 1⟩)
  | _, _ => .error .other

/-- The row ordering used by `ORDER BY record_date DESC`: `a` may come
before `b` when `b`'s date is at most `a`'s date. -/
def rowGe (a b : Row) : Prop :=
  Date.leB b.record_date a.record_date = true

instance : DecidableRel rowGe := fun a b => by
  unfold rowGe
  infer_instance

/-- Semantics of `SELECT id, sleep_time, record_date FROM sleep_records
ORDER BY record_date DESC` (app.py line 125): the rows sorted by date
descending; the store is not modified. -/
def dbSelectAll (st : Store) : List Row × Store :=
  (List.insertionSort rowGe st.rows, st)

/-- Semantics of `SELECT COUNT(*) FROM sleep_records` (app.py line 147). -/
def dbCount (st : Store) : Nat × Store :=
  (st.rows.length, st)

/-- Semantics of `SELECT sleep_time FROM sleep_records` (app.py line 150). -/
def dbSelectTimes (st : Store) : List Time × Store :=
  (st.rows.map (fun r => r.sleep_time), st)

/-- A record as serialized into a JSON response:
`{"id": r[0], "sleep_time": str(r[1]), "record_date": r[2].isoformat()}`
(app.py lines 110 and 130). -/
structure RecordOut where
  id : Nat
  sleep_time : String
  record_date : String
  deriving DecidableEq

/-- Serialization of one row (app.py lines 110 and 130). -/
def Row.serialize (r : Row) : RecordOut :=
  ⟨r.id, r.sleep_time.serialize, r.record_date.isoformat⟩

/-- The JSON body of a response. -/
inductive Body where
  | errMsg (msg : String)
  | created (status : String) (rec : RecordOut)
  | records (rs : List RecordOut)
  | stats (total_records : Nat) (total_late_minutes : Nat)
  deriving DecidableEq

/-- An HTTP response: status code and JSON body. -/
structure Resp where
  code : Nat
  body : Body
  deriving DecidableEq

/-- Connection-lifecycle events a handler performs, in order: acquiring
the store connection, closing it, executing a statement, and emitting
the HTTP response. -/
inductive Ev where
  | connOpen
  | connClose
  | query
  | respond (code : Nat)
  deriving DecidableEq

/-- The outcome of one request: the event sequence, the response, and
the store state afterwards. -/
structure HandlerResult where
  trace : List Ev
  resp : Resp
  store : Store
  deriving DecidableEq

/-- The parsed JSON body as Flask's `request.get_json()` yields it:
`none` for a null body, otherwise the object's key/value pairs
(string-valued fields, as the API contract sends). -/
abbrev ReqBody := Option (List (String × String))

/-- Python `data.get(k)` on the parsed JSON object. -/
def getField (kvs : List (String × String)) (k : String) : Option String :=
  (kvs.find? (fun kv => kv.1 == k)).map (fun kv => kv.2)

/-- Python truthiness of `data` (app.py line 92): `None` and `{}` are falsy. -/
def bodyFalsy : ReqBody → Bool
  | none => true
  | some kvs => kvs.isEmpty

/-- Python truthiness of an optional string field (app.py line 99):
a missing field and the empty string are falsy. -/
def truthy : Option String → Bool
  | none => false
  | some s => !(s == "")

/-- `POST /api/records` (app.py lines 89-120).  The handler opens a
connection (line 86), checks the body for falsiness (line 92), checks
both fields for truthiness (line 99) - these two failure returns do not
close the connection - then executes the INSERT; on success it commits,
closes and returns the new record, on `IntegrityError` it closes and
returns the duplicate error, on any other error it closes and returns a
server error.  `fault` injects an execution failure at the INSERT. -/
def handlePost (st : Store) (data : ReqBody) (fault : Bool) : HandlerResult :=
  if bodyFalsy data then
    ⟨[.connOpen, .respond 400], ⟨400, .errMsg "无效的JSON数据"⟩, st⟩
  else
    let kvs := data.getD []
    let sleep_time := getField kvs "sleep_time"
    let record_date := getField kvs "record_date"
    if !truthy sleep_time || !truthy record_date then
      ⟨[.connOpen, .respond 400], ⟨400, .errMsg "缺少必要参数"⟩, st⟩
    else if fault then
      ⟨[.connOpen, .query, .connClose, .respond 500], ⟨500, .errMsg "服务器错误"⟩, st⟩
    else
      match dbInsert st (sleep_time.getD "") (record_date.getD "") with
      | .ok (r, st') =>
        ⟨[.connOpen, .query, .connClose, .respond 200],
          ⟨200, .created "记录成功！" r.serialize⟩, st'⟩
      | .error .integrity =>
        ⟨[.connOpen, .query, .connClose, .respond 400],
          ⟨400, .errMsg "今日记录已存在！"⟩, st⟩
      | .error .other =>
        ⟨[.connOpen, .query, .connClose, .respond 500],
          ⟨500, .errMsg "服务器错误"⟩, st⟩

/-- `GET /api/records` (app.py lines 122-136): select all rows ordered
by date descending and serialize them; on a storage fault close the
connection and return 500. -/
def handleGet (st : Store) (fault : Bool) : HandlerResult :=
  if fault then
    ⟨[.connOpen, .query, .connClose, .respond 500], ⟨500, .errMsg "获取记录失败"⟩, st⟩
  else
    let (rs, st') := dbSelectAll st
    ⟨[.connOpen, .query, .connClose, .respond 200],
      ⟨200, .records (rs.map Row.serialize)⟩, st'⟩

/-- `GET /api/stats` (app.py lines 138-167): count all rows, select all
sleep times, and accumulate `(t.hour - 23) * 60 + t.minute` for every
time with `t.hour >= 23` (lines 154-157; every selected value is a
`datetime.time`, so the `isinstance` guard holds).  On a storage fault
the `except` clause returns 500 without closing the connection. -/
def get_stats (st : Store) (fault : Bool) : HandlerResult :=
  if fault then
    ⟨[.connOpen, .query, .respond 500], ⟨500, .errMsg "获取统计失败"⟩, st⟩
  else
    let (total_count, st₁) := dbCount st
    let (times, st₂) := dbSelectTimes st₁
    let total_late_minutes :=
      times.foldl (fun acc t => if 23 ≤ t.hour then acc + ((t.hour - 23) * 60 + t.minute) else acc) 0
    ⟨[.connOpen, .query, .query, .connClose, .respond 200],
      ⟨200, .stats total_count total_late_minutes⟩, st₂⟩

/-- The spec's lateness function: minutes past 23:00, zero before 23:00. -/
def lateness (t : Time) : Nat :=
  if 23 ≤ t.hour then (t.hour - 23) * 60 + t.minute else 0

/-- Scan an event list keeping the number of connections currently
open; report whether some response is emitted while one is open. -/
def respondWhileOpenFrom : Nat → List Ev → Bool
  | _, [] => false
  | n, .connOpen :: tr => respondWhileOpenFrom (n + 1) tr
  | n, .connClose :: tr => respondWhileOpenFrom (n - 1) tr
  | n, .query :: tr => respondWhileOpenFrom n tr
  | n, .respond _ :: tr => decide (0 < n) || respondWhileOpenFrom n tr

/-- Whether a response is emitted while a store connection is still open. -/
def respondWhileOpen (tr : List Ev) : Bool :=
  respondWhileOpenFrom 0 tr

/-- Whether the trace executes any statement against the store. -/
def queriesStore (tr : List Ev) : Bool :=
  tr.any (fun e => e == .query)

/-- Example time 23:30:00. -/
def exTime : Time := ⟨23, 30, 0⟩

/-- Example date 2024-01-01. -/
def exDate : Date := ⟨2024, 1, 1⟩

/-- Example one-row store: sleep time 23:30:00 on 2024-01-01. -/
def exStore : Store := ⟨[⟨1, exTime, exDate⟩], 2⟩

/-- Example two-row store with ascending dates, for sorting. -/
def exStore2 : Store := ⟨[⟨1, ⟨23, 30, 0⟩, ⟨2024, 1, 1⟩⟩, ⟨2, ⟨22, 0, 0⟩, ⟨2024, 1, 2⟩⟩], 3⟩

/-! ## Helper lemmas -/

theorem foldl_late_eq_sum (ts : List Time) (acc : Nat) :
    ts.foldl (fun acc t => if 23 ≤ t.hour then acc + ((t.hour - 23) * 60 + t.minute) else acc) acc
      = acc + (ts.map lateness).sum := by
  induction ts generalizing acc with
  | nil => simp
  | cons t ts ih =>
    simp only [List.foldl_cons, List.map_cons, List.sum_cons, ih, lateness]
    split <;> omega

theorem get_stats_resp_eq (st : Store) :
    (get_stats st false).resp =
      ⟨200, .stats st.rows.length ((st.rows.map (fun r => lateness r.sleep_time)).sum)⟩ := by
  simp only [get_stats, dbCount, dbSelectTimes, Bool.false_eq_true, if_false,
    foldl_late_eq_sum, Nat.zero_add, List.map_map]
  rfl

theorem sum_lateness_le (rs : List Row)
    (h : ∀ r ∈ rs, r.sleep_time.hour < 24 ∧ r.sleep_time.minute < 60) :
    (rs.map (fun r => lateness r.sleep_time)).sum ≤ 59 * rs.length := by
  induction rs with
  | nil => simp
  | cons r rs ih =>
    simp only [List.map_cons, List.sum_cons, List.length_cons]
    have h1 := h r (by simp)
    have h2 := ih (fun x hx => h x (List.mem_cons_of_mem r hx))
    have h3 : lateness r.sleep_time ≤ 59 := by
      unfold lateness
      split <;> omega
    omega

theorem getField_isEmpty_false {kvs : List (String × String)} {k v : String}
    (h : getField kvs k = some v) : kvs.isEmpty = false := by
  cases kvs with
  | nil => simp [getField] at h
  | cons a l => rfl

theorem parseTime_ne_empty {s : String} {t : Time} (h : parseTime s = some t) : s ≠ "" := by
  intro hs
  subst hs
  have hnone : parseTime "" = none := by decide
  rw [hnone] at h
  exact Option.noConfusion h

theorem parseDate_ne_empty {s : String} {d : Date} (h : parseDate s = some d) : s ≠ "" := by
  intro hs
  subst hs
  have hnone : parseDate "" = none := by decide
  rw [hnone] at h
  exact Option.noConfusion h

theorem handlePost_validated (st : Store) (kvs : List (String × String)) (ts ds : String)
    (hts : getField kvs "sleep_time" = some ts)
    (hds : getField kvs "record_date" = some ds)
    (hts0 : ts ≠ "") (hds0 : ds ≠ "") :
    handlePost st (some kvs) false =
      match dbInsert st ts ds with
      | .ok (r, st') =>
        ⟨[.connOpen, .query, .connClose, .respond 200],
          ⟨200, .created "记录成功！" r.serialize⟩, st'⟩
      | .error .integrity =>
        ⟨[.connOpen, .query, .connClose, .respond 400],
          ⟨400, .errMsg "今日记录已存在！"⟩, st⟩
      | .error .other =>
        ⟨[.connOpen, .query, .connClose, .respond 500],
          ⟨500, .errMsg "服务器错误"⟩, st⟩ := by
  have hne : kvs.isEmpty = false := getField_isEmpty_false hts
  have h1 : (ts == "") = false := beq_eq_false_iff_ne.mpr hts0
  have h2 : (ds == "") = false := beq_eq_false_iff_ne.mpr hds0
  simp [handlePost, bodyFalsy, hne, hts, hds, truthy, h1, h2]

theorem handlePost_dup (st : Store) (kvs : List (String × String)) (ts ds : String)
    (t : Time) (d : Date)
    (hts : getField kvs "sleep_time" = some ts)
    (hds : getField kvs "record_date" = some ds)
    (hpt : parseTime ts = some t) (hpd : parseDate ds = some d)
    (hdup : st.hasDate d = true) :
    handlePost st (some kvs) false =
      ⟨[.connOpen, .query, .connClose, .respond 400],
        ⟨400, .errMsg "今日记录已存在！"⟩, st⟩ := by
  rw [handlePost_validated st kvs ts ds hts hds (parseTime_ne_empty hpt) (parseDate_ne_empty hpd)]
  simp [dbInsert, hpt, hpd, hdup]

theorem handlePost_ok (st : Store) (kvs : List (String × String)) (ts ds : String)
    (t : Time) (d : Date)
    (hts : getField kvs "sleep_time" = some ts)
    (hds : getField kvs "record_date" = some ds)
    (hpt : parseTime ts = some t) (hpd : parseDate ds = some d)
    (hnew : st.hasDate d = false) :
    handlePost st (some kvs) false =
      ⟨[.connOpen, .query, .connClose, .respond 200],
        ⟨200, .created "记录成功！" (Row.serialize ⟨st.nextId, t, d⟩)⟩,
        ⟨st.rows ++ [⟨st.nextId, t, d⟩], st.nextId + 1⟩⟩ := by
  rw [handlePost_validated st kvs ts ds hts hds (parseTime_ne_empty hpt) (parseDate_ne_empty hpd)]
  simp [dbInsert, hpt, hpd, hnew]

theorem dbInsert_ok {st : Store} {a b : String} {r : Row} {st' : Store}
    (h : dbInsert st a b = .ok (r, st')) :
    ∃ t d, parseTime a = some t ∧ parseDate b = some d ∧ st.hasDate d = false ∧
      r = ⟨st.nextId, t, d⟩ ∧ st' = ⟨st.rows ++ [⟨st.nextId, t, d⟩], st.nextId + 1⟩ := by
  unfold dbInsert at h
  rcases hpt : parseTime a with _ | t <;> rw [hpt] at h
  · exact absurd h (by simp)
  · rcases hpd : parseDate b with _ | d <;> rw [hpd] at h
    · exact absurd h (by simp)
    · by_cases hd : st.hasDate d
      · simp [hd] at h
      · simp only [hd, Bool.false_eq_true, if_false, Except.ok.injEq, Prod.mk.injEq] at h
        exact ⟨t, d, rfl, rfl, by simp [hd], h.1.symm, h.2.symm⟩

theorem handlePost_store_cases (st : Store) (data : ReqBody) (fault : Bool) :
    (handlePost st data fault).store = st ∨
    ∃ t d, st.hasDate d = false ∧
      (handlePost st data fault).store = ⟨st.rows ++ [⟨st.nextId, t, d⟩], st.nextId + 1⟩ := by
  unfold handlePost
  split
  · left; rfl
  · dsimp only
    split
    · left; rfl
    · split
      · left; rfl
      · split
        · rename_i r st' heq
          obtain ⟨t, d, -, -, hd, -, hst⟩ := dbInsert_ok heq
          exact Or.inr ⟨t, d, hd, hst⟩
        · left; rfl
        · left; rfl

theorem handlePost_validated_trace (st : Store) (data : ReqBody) (fault : Bool)
    (h1 : bodyFalsy data = false)
    (h2 : truthy (getField (data.getD []) "sleep_time") = true)
    (h3 : truthy (getField (data.getD []) "record_date") = true) :
    (handlePost st data fault).trace = [.connOpen, .query, .connClose, .respond 200]
    ∨ (handlePost st data fault).trace = [.connOpen, .query, .connClose, .respond 400]
    ∨ (handlePost st data fault).trace = [.connOpen, .query, .connClose, .respond 500] := by
  unfold handlePost
  simp only [h1, Bool.false_eq_true, if_false, h2, h3, Bool.not_true, Bool.or_self]
  split
  · exact Or.inr (Or.inr rfl)
  · split
    · exact Or.inl rfl
    · exact Or.inr (Or.inl rfl)
    · exact Or.inr (Or.inr rfl)

theorem Date.leB_trans (x y z : Date) (h1 : Date.leB x y = true) (h2 : Date.leB y z = true) :
    Date.leB x z = true := by
  obtain ⟨xy, xm, xd⟩ := x
  obtain ⟨yy, ym, yd⟩ := y
  obtain ⟨zy, zm, zd⟩ := z
  simp only [Date.leB, Bool.or_eq_true, Bool.and_eq_true, beq_iff_eq,
    decide_eq_true_eq] at h1 h2 ⊢
  omega

theorem Date.leB_total (x y : Date) : Date.leB x y = true ∨ Date.leB y x = true := by
  obtain ⟨xy, xm, xd⟩ := x
  obtain ⟨yy, ym, yd⟩ := y
  simp only [Date.leB, Bool.or_eq_true, Bool.and_eq_true, beq_iff_eq, decide_eq_true_eq]
  omega

theorem Date.ltB_of_leB_of_ne {x y : Date} (h : Date.leB x y = true) (hne : x ≠ y) :
    Date.ltB x y = true := by
  obtain ⟨xy, xm, xd⟩ := x
  obtain ⟨yy, ym, yd⟩ := y
  simp only [ne_eq, Date.mk.injEq] at hne
  simp only [Date.leB, Date.ltB, Bool.or_eq_true, Bool.and_eq_true, beq_iff_eq,
    decide_eq_true_eq] at h ⊢
  omega

instance : IsTrans Row rowGe :=
  ⟨fun a b c h1 h2 => Date.leB_trans c.record_date b.record_date a.record_date h2 h1⟩

instance : IsTotal Row rowGe :=
  ⟨fun a b => (Date.leB_total b.record_date a.record_date).imp id id⟩

theorem hasDate_false_not_mem {st : Store} {d : Date} (hd : st.hasDate d = false) :
    d ∉ storeDates st := by
  intro hmem
  simp only [storeDates, List.mem_map] at hmem
  obtain ⟨r, hr, hrd⟩ := hmem
  have hT : st.hasDate d = true := by
    simp only [Store.hasDate, List.any_eq_true]
    exact ⟨r, hr, by simp [hrd]⟩
  rw [hT] at hd
  exact Bool.noConfusion hd

theorem datesNodup_append {st : Store} {t : Time} {d : Date}
    (h : datesNodup st) (hd : st.hasDate d = false) :
    datesNodup ⟨st.rows ++ [⟨st.nextId, t, d⟩], st.nextId + 1⟩ := by
  have hnm := hasDate_false_not_mem hd
  simp only [datesNodup, storeDates] at h hnm ⊢
  simp only [List.map_append, List.map_cons, List.map_nil]
  rw [List.nodup_append]
  refine ⟨h, List.nodup_singleton d, fun a ha hb => ?_⟩
  simp only [List.mem_singleton] at hb
  exact hnm (hb ▸ ha)

theorem handleGet_store (st : Store) (fault : Bool) : (handleGet st fault).store = st := by
  cases fault <;> rfl

theorem get_stats_store (st : Store) (fault : Bool) : (get_stats st fault).store = st := by
  cases fault <;> rfl

/-! ## Claim theorems -/

/-- C1: the statistics computation returns `total_records` equal to the number of
stored records and `total_late_minutes` equal to the sum over all stored records of
`lateness(sleep_time)`, where `lateness` is zero below hour 23 and
`(hour - 23) * 60 + minute` from hour 23 on; in particular every record whose hour
is in 0..22 contributes zero. -/
theorem stats_totals_correct (st : Store) :
    (get_stats st false).resp =
      ⟨200, .stats st.rows.length ((st.rows.map (fun r => lateness r.sleep_time)).sum)⟩
    ∧ ∀ t : Time, t.hour < 23 → lateness t = 0 := by
  refine ⟨get_stats_resp_eq st, fun t ht => ?_⟩
  unfold lateness
  rw [if_neg (by omega)]

/-- Witness for C1 at the one-record store (23:30 → 30 late minutes) and the
post-midnight-side time 22:30. -/
theorem stats_totals_correct_witness :
    (get_stats exStore false).resp = ⟨200, .stats 1 30⟩ ∧ lateness ⟨22, 30, 0⟩ = 0 :=
  ⟨by decide, (stats_totals_correct exStore).2 ⟨22, 30, 0⟩ (by decide)⟩

/-- C9: when every stored time is in range (hour < 24, minute < 60), the computed
`total_late_minutes` lies between 0 and `59 * total_records`. -/
theorem stats_late_minutes_bound (st : Store)
    (h : ∀ r ∈ st.rows, r.sleep_time.hour < 24 ∧ r.sleep_time.minute < 60) :
    (get_stats st false).resp =
      ⟨200, .stats st.rows.length ((st.rows.map (fun r => lateness r.sleep_time)).sum)⟩
    ∧ 0 ≤ (st.rows.map (fun r => lateness r.sleep_time)).sum
    ∧ (st.rows.map (fun r => lateness r.sleep_time)).sum ≤ 59 * st.rows.length :=
  ⟨get_stats_resp_eq st, Nat.zero_le _, sum_lateness_le st.rows h⟩

/-- Witness for C9 at the one-record store. -/
theorem stats_late_minutes_bound_witness :
    (get_stats exStore false).resp =
      ⟨200, .stats exStore.rows.length ((exStore.rows.map (fun r => lateness r.sleep_time)).sum)⟩
    ∧ 0 ≤ (exStore.rows.map (fun r => lateness r.sleep_time)).sum
    ∧ (exStore.rows.map (fun r => lateness r.sleep_time)).sum ≤ 59 * exStore.rows.length :=
  stats_late_minutes_bound exStore (by decide)

/-- C10: the list and statistics operations are read-only: on every store state and
on both the success and fault paths they leave the stored records unchanged. -/
theorem read_ops_preserve_store (st : Store) (fault : Bool) :
    (handleGet st fault).store = st ∧ (get_stats st fault).store = st :=
  ⟨handleGet_store st fault, get_stats_store st fault⟩

/-- C3: a submit whose body is missing `sleep_time` or `record_date` is rejected
with HTTP 400 carrying one of the two validation messages, no statement is executed
against the store, and the store is unchanged. -/
theorem missing_field_rejected (st : Store) (kvs : List (String × String)) (fault : Bool)
    (h : getField kvs "sleep_time" = none ∨ getField kvs "record_date" = none) :
    (handlePost st (some kvs) fault).resp.code = 400
    ∧ ((handlePost st (some kvs) fault).resp.body = .errMsg "无效的JSON数据"
        ∨ (handlePost st (some kvs) fault).resp.body = .errMsg "缺少必要参数")
    ∧ queriesStore (handlePost st (some kvs) fault).trace = false
    ∧ (handlePost st (some kvs) fault).store = st := by
  by_cases hkvs : kvs.isEmpty
  · simp [handlePost, bodyFalsy, hkvs, queriesStore]
  · rcases h with h | h <;>
      simp [handlePost, bodyFalsy, hkvs, h, truthy, queriesStore]

/-- Witness for C3: a body with only a date is rejected without touching the store. -/
theorem missing_field_rejected_witness :
    (handlePost exStore (some [("record_date", "2024-01-02")]) false).resp.code = 400
    ∧ ((handlePost exStore (some [("record_date", "2024-01-02")]) false).resp.body = .errMsg "无效的JSON数据"
        ∨ (handlePost exStore (some [("record_date", "2024-01-02")]) false).resp.body = .errMsg "缺少必要参数")
    ∧ queriesStore (handlePost exStore (some [("record_date", "2024-01-02")]) false).trace = false
    ∧ (handlePost exStore (some [("record_date", "2024-01-02")]) false).store = exStore :=
  missing_field_rejected exStore [("record_date", "2024-01-02")] false (Or.inl (by decide))

/-- C8: a POST whose parsed JSON body is falsy (null or the empty object) is
rejected with 400 before any statement is executed against the store, and a
`sleep_time` or `record_date` field present but equal to the empty string is
rejected the same way: 400, no query, no row written. -/
theorem falsy_body_or_empty_field_rejected (st : Store) (data : ReqBody)
    (kvs : List (String × String)) :
    (bodyFalsy data = true →
      (handlePost st data false).resp.code = 400
      ∧ queriesStore (handlePost st data false).trace = false
      ∧ (handlePost st data false).store = st)
    ∧ ((getField kvs "sleep_time" = some "" ∨ getField kvs "record_date" = some "") →
      (handlePost st (some kvs) false).resp.code = 400
      ∧ queriesStore (handlePost st (some kvs) false).trace = false
      ∧ (handlePost st (some kvs) false).store = st) := by
  constructor
  · intro hf
    simp [handlePost, hf, queriesStore]
  · intro h
    by_cases hkvs : kvs.isEmpty
    · simp [handlePost, bodyFalsy, hkvs, queriesStore]
    · rcases h with h | h <;>
        simp [handlePost, bodyFalsy, hkvs, h, truthy, queriesStore]

/-- Witness for C8: the empty object and an empty `sleep_time` are both rejected. -/
theorem falsy_body_or_empty_field_rejected_witness :
    ((handlePost exStore (some []) false).resp.code = 400
      ∧ queriesStore (handlePost exStore (some []) false).trace = false
      ∧ (handlePost exStore (some []) false).store = exStore)
    ∧ ((handlePost exStore (some [("sleep_time", ""), ("record_date", "2024-01-05")]) false).resp.code = 400
      ∧ queriesStore (handlePost exStore (some [("sleep_time", ""), ("record_date", "2024-01-05")]) false).trace = false
      ∧ (handlePost exStore (some [("sleep_time", ""), ("record_date", "2024-01-05")]) false).store = exStore) :=
  ⟨(falsy_body_or_empty_field_rejected exStore (some []) []).1 (by decide),
   (falsy_body_or_empty_field_rejected exStore (some [])
      [("sleep_time", ""), ("record_date", "2024-01-05")]).2 (Or.inl (by decide))⟩

/-- C2 counterexample: with 2024-01-01 already stored, a second submit for that
same date carrying sleep_time "" is answered by the validation error, not the
duplicate error, so the claim does not hold for every submitted sleep_time. -/
theorem duplicate_submit_cex :
    exStore.hasDate ⟨2024, 1, 1⟩ = true
    ∧ (handlePost exStore (some [("sleep_time", ""), ("record_date", "2024-01-01")]) false).resp
        = ⟨400, .errMsg "缺少必要参数"⟩
    ∧ (handlePost exStore (some [("sleep_time", ""), ("record_date", "2024-01-01")]) false).resp.body
        ≠ .errMsg "今日记录已存在！" := by
  decide

/-- C2 (amended): for every submit whose sleep_time and record_date fields are
present, non-empty and well-formed, if the parsed record_date is already stored
the submit fails with the duplicate-record error as HTTP 400 and the store is
unchanged. -/
theorem duplicate_submit_rejected (st : Store) (kvs : List (String × String))
    (ts ds : String) (t : Time) (d : Date)
    (hts : getField kvs "sleep_time" = some ts)
    (hds : getField kvs "record_date" = some ds)
    (hpt : parseTime ts = some t)
    (hpd : parseDate ds = some d)
    (hdup : st.hasDate d = true) :
    (handlePost st (some kvs) false).resp = ⟨400, .errMsg "今日记录已存在！"⟩
    ∧ (handlePost st (some kvs) false).store = st := by
  rw [handlePost_dup st kvs ts ds t d hts hds hpt hpd hdup]
  exact ⟨rfl, rfl⟩

/-- Witness for C2 at the one-record store. -/
theorem duplicate_submit_rejected_witness :
    (handlePost exStore (some [("sleep_time", "23:00:00"), ("record_date", "2024-01-01")]) false).resp
      = ⟨400, .errMsg "今日记录已存在！"⟩
    ∧ (handlePost exStore (some [("sleep_time", "23:00:00"), ("record_date", "2024-01-01")]) false).store
      = exStore :=
  duplicate_submit_rejected exStore [("sleep_time", "23:00:00"), ("record_date", "2024-01-01")]
    "23:00:00" "2024-01-01" ⟨23, 0, 0⟩ ⟨2024, 1, 1⟩
    (by decide) (by decide) (by decide) (by decide) (by decide)

/-- C7: a successful submit answers 200 with the newly created record: the next
serial id, the sleep time serialized as zero-padded HH:MM:SS and the record date
serialized as ISO-8601 YYYY-MM-DD. -/
theorem submit_success_response (st : Store) (kvs : List (String × String))
    (ts ds : String) (t : Time) (d : Date)
    (hts : getField kvs "sleep_time" = some ts)
    (hds : getField kvs "record_date" = some ds)
    (hpt : parseTime ts = some t)
    (hpd : parseDate ds = some d)
    (hnew : st.hasDate d = false) :
    (handlePost st (some kvs) false).resp.code = 200
    ∧ (handlePost st (some kvs) false).resp.body =
        .created "记录成功！"
          ⟨st.nextId,
            pad2 t.hour ++ ":" ++ pad2 t.minute ++ ":" ++ pad2 t.second,
            pad4 d.year ++ "-" ++ pad2 d.month ++ "-" ++ pad2 d.day⟩ := by
  rw [handlePost_ok st kvs ts ds t d hts hds hpt hpd hnew]
  exact ⟨rfl, rfl⟩

/-- Witness for C7: submitting 23:30:00 on 2024-01-01 into the empty store. -/
theorem submit_success_response_witness :
    (handlePost ⟨[], 1⟩ (some [("sleep_time", "23:30:00"), ("record_date", "2024-01-01")]) false).resp.code = 200
    ∧ (handlePost ⟨[], 1⟩ (some [("sleep_time", "23:30:00"), ("record_date", "2024-01-01")]) false).resp.body
        = .created "记录成功！" ⟨1, "23:30:00", "2024-01-01"⟩ := by
  have h := submit_success_response ⟨[], 1⟩
    [("sleep_time", "23:30:00"), ("record_date", "2024-01-01")]
    "23:30:00" "2024-01-01" ⟨23, 30, 0⟩ ⟨2024, 1, 1⟩
    (by decide) (by decide) (by decide) (by decide) (by decide)
  refine ⟨h.1, ?_⟩
  rw [h.2]
  decide

/-- C4: under the store invariant (pairwise-distinct dates) the list operation
returns exactly the stored records ordered by record_date strictly descending,
and the GET handler serializes that ordered list. -/
theorem list_sorted_desc (st : Store) (h : datesNodup st) :
    (dbSelectAll st).1.Perm st.rows
    ∧ List.Pairwise (fun a b => Date.ltB b.record_date a.record_date = true) (dbSelectAll st).1
    ∧ (handleGet st false).resp = ⟨200, .records ((dbSelectAll st).1.map Row.serialize)⟩ := by
  have hperm : (dbSelectAll st).1.Perm st.rows := List.perm_insertionSort rowGe st.rows
  refine ⟨hperm, ?_, rfl⟩
  have hsorted : List.Pairwise rowGe (dbSelectAll st).1 :=
    List.sorted_insertionSort rowGe st.rows
  have h' : (st.rows.map (fun r => r.record_date)).Nodup := h
  have hnd : ((dbSelectAll st).1.map (fun r => r.record_date)).Nodup :=
    ((hperm.map (fun r => r.record_date)).nodup_iff).mpr h'
  have hne : (dbSelectAll st).1.Pairwise (fun a b => a.record_date ≠ b.record_date) :=
    List.pairwise_map.mp hnd
  exact (hsorted.and hne).imp
    (fun hab => Date.ltB_of_leB_of_ne hab.1 (Ne.symm hab.2))

/-- Witness for C4 at the two-record store with ascending insertion order. -/
theorem list_sorted_desc_witness :
    (dbSelectAll exStore2).1.Perm exStore2.rows
    ∧ List.Pairwise (fun a b => Date.ltB b.record_date a.record_date = true) (dbSelectAll exStore2).1
    ∧ (handleGet exStore2 false).resp = ⟨200, .records ((dbSelectAll exStore2).1.map Row.serialize)⟩ :=
  list_sorted_desc exStore2 (by unfold datesNodup storeDates; decide)

/-- C5 counterexample: the POST validation-failure path (falsy body, app.py lines
92-93) emits its 400 response while the store connection opened at line 86 is
still open. -/
theorem response_while_connection_open_cex :
    respondWhileOpen (handlePost exStore (some []) false).trace = true := by
  decide

/-- C5 (amended): the store connection is released before the response on every
path of the records endpoints except the POST validation-failure returns (falsy
body or a missing/empty field), and on the stats success path; the stats
storage-fault path and the POST validation returns respond with the connection
still open. -/
theorem connection_released_before_response (st : Store) (data : ReqBody) (fault : Bool) :
    (bodyFalsy data = false →
      truthy (getField (data.getD []) "sleep_time") = true →
      truthy (getField (data.getD []) "record_date") = true →
      respondWhileOpen (handlePost st data fault).trace = false)
    ∧ respondWhileOpen (handleGet st fault).trace = false
    ∧ respondWhileOpen (get_stats st false).trace = false := by
  refine ⟨fun h1 h2 h3 => ?_, ?_, ?_⟩
  · rcases handlePost_validated_trace st data fault h1 h2 h3 with hT | hT | hT <;>
      rw [hT] <;> decide
  · have hT : (handleGet st fault).trace =
        if fault then [Ev.connOpen, Ev.query, Ev.connClose, Ev.respond 500]
        else [Ev.connOpen, Ev.query, Ev.connClose, Ev.respond 200] := by
      cases fault <;> rfl
    rw [hT]
    cases fault <;> decide
  · have hT : (get_stats st false).trace =
        [Ev.connOpen, Ev.query, Ev.query, Ev.connClose, Ev.respond 200] := rfl
    rw [hT]
    decide

/-- Witness for the amended C5 on a fresh submit, a list and a stats request. -/
theorem connection_released_before_response_witness :
    respondWhileOpen (handlePost exStore (some [("sleep_time", "23:00:00"), ("record_date", "2024-01-02")]) false).trace = false
    ∧ respondWhileOpen (handleGet exStore false).trace = false
    ∧ respondWhileOpen (get_stats exStore false).trace = false :=
  ⟨(connection_released_before_response exStore
      (some [("sleep_time", "23:00:00"), ("record_date", "2024-01-02")]) false).1
      (by decide) (by decide) (by decide),
   (connection_released_before_response exStore
      (some [("sleep_time", "23:00:00"), ("record_date", "2024-01-02")]) false).2.1,
   (connection_released_before_response exStore
      (some [("sleep_time", "23:00:00"), ("record_date", "2024-01-02")]) false).2.2⟩

/-- C6: the unique-date invariant is preserved by every operation, and a submit
whose parsed date is already stored fails as a 400 error with the store unchanged
rather than crashing. -/
theorem unique_date_invariant (st : Store) (data : ReqBody) (fault : Bool)
    (h : datesNodup st) :
    datesNodup (handlePost st data fault).store
    ∧ datesNodup (handleGet st fault).store
    ∧ datesNodup (get_stats st fault).store
    ∧ ∀ kvs ts ds t d, data = some kvs →
        getField kvs "sleep_time" = some ts → getField kvs "record_date" = some ds →
        parseTime ts = some t → parseDate ds = some d → st.hasDate d = true →
        (handlePost st data false).resp.code = 400 ∧ (handlePost st data false).store = st := by
  refine ⟨?_, ?_, ?_, ?_⟩
  · rcases handlePost_store_cases st data fault with hc | ⟨t, d, hd, hc⟩
    · rw [hc]; exact h
    · rw [hc]; exact datesNodup_append h hd
  · rw [handleGet_store]; exact h
  · rw [get_stats_store]; exact h
  · intro kvs ts ds t d hdata hts hds hpt hpd hdup
    subst hdata
    rw [handlePost_dup st kvs ts ds t d hts hds hpt hpd hdup]
    exact ⟨rfl, rfl⟩

/-- Witness for C6 at the one-record store and the duplicate submit. -/
theorem unique_date_invariant_witness :
    datesNodup (handlePost exStore (some [("sleep_time", "23:00:00"), ("record_date", "2024-01-01")]) false).store
    ∧ datesNodup (handleGet exStore false).store
    ∧ datesNodup (get_stats exStore false).store
    ∧ ((handlePost exStore (some [("sleep_time", "23:00:00"), ("record_date", "2024-01-01")]) false).resp.code = 400
      ∧ (handlePost exStore (some [("sleep_time", "23:00:00"), ("record_date", "2024-01-01")]) false).store = exStore) := by
  have h := unique_date_invariant exStore
    (some [("sleep_time", "23:00:00"), ("record_date", "2024-01-01")]) false
    (by unfold datesNodup storeDates; decide)
  exact ⟨h.1, h.2.1, h.2.2.1,
    h.2.2.2 [("sleep_time", "23:00:00"), ("record_date", "2024-01-01")]
      "23:00:00" "2024-01-01" ⟨23, 0, 0⟩ ⟨2024, 1, 1⟩ rfl
      (by decide) (by decide) (by decide) (by decide) (by decide)⟩

end SleepApp
